import Mathlib

/-!
Shallow embedding of cmdrdata-gemini's `proxy.py`: the `TrackedProxy`
attribute-resolution logic, the per-call interceptor built by
`TrackedProxy._wrap_method`, and the two extraction functions
`track_generate_content` and `track_count_tokens`.

Python values that appear as keyword arguments are modelled by `Val`;
a raised Python exception is modelled by `PyError`, carrying the string
form `str(e)` and, when the duck-typed `code` accessor is present, the
string form of `e.code()`.
-/

namespace CmdrData

/-- Python values appearing as keyword-argument values in the embedding.
`ellipsis` models the `...` sentinel used as the unset default for
`customer_id`. -/
inductive Val where
  | str (s : String)
  | bool (b : Bool)
  | int (n : Int)
  | none
  | ellipsis
deriving DecidableEq, Repr

/-- Python truthiness of a `Val` (used for `if track_usage:` and similar). -/
def truthy : Val → Bool
  | .str s => !(s = "")
  | .bool b => b
  | .int n => !(n = 0)
  | .none => false
  | .ellipsis => true

/-- A raised Python exception as the interceptor observes it:
`code` is `some (str(e.code()))` exactly when `hasattr(e, "code")`
holds (the duck-typed gRPC status accessor), and `msg` is `str(e)`. -/
structure PyError where
  code : Option String
  msg : String
deriving DecidableEq, Repr

/-- The full set of keyword arguments that `TrackedProxy._wrap_method.wrapped`
passes to the extraction function (`tracker_func`) on one invocation.
The `tracker` capability handle is omitted (it is opaque to the wrapper). -/
structure TrackCall (R : Type) where
  result : Option R
  customer_id : Val
  method_name : String
  args : List Val
  kwargs : List (String × Val)
  custom_metadata : Val
  request_start_time : Nat
  request_end_time : Nat
  error_occurred : Bool
  error_type : Option String
  error_code : Option String
  error_message : Option String
  request_id : String

/-- `kwargs.pop(k, dflt)` on a Python dict, modelled on an association
list: return the bound value (or the default) and the list with the
first binding of `k` removed. -/
def popKw (k : String) (dflt : Val) (kws : List (String × Val)) :
    Val × List (String × Val) :=
  match kws.lookup k with
  | some v => (v, kws.eraseP (fun p => p.1 == k))
  | Option.none => (dflt, kws)

/-- The `customer_id` override popped by the wrapper (line 109),
defaulting to the `...` unset sentinel. -/
def customerIdArg (kwargs : List (String × Val)) : Val :=
  (popKw "customer_id" Val.ellipsis kwargs).1

/-- Remaining kwargs after popping `customer_id`. -/
def kwAfterCustomer (kwargs : List (String × Val)) : List (String × Val) :=
  (popKw "customer_id" Val.ellipsis kwargs).2

/-- The `track_usage` flag popped by the wrapper (line 110), default `True`. -/
def trackUsageFlag (kwargs : List (String × Val)) : Val :=
  (popKw "track_usage" (Val.bool true) (kwAfterCustomer kwargs)).1

/-- Remaining kwargs after popping `customer_id` and `track_usage`. -/
def kwAfterTrack (kwargs : List (String × Val)) : List (String × Val) :=
  (popKw "track_usage" (Val.bool true) (kwAfterCustomer kwargs)).2

/-- The `metadata` override popped by the wrapper (line 111), default `None`. -/
def metadataArg (kwargs : List (String × Val)) : Val :=
  (popKw "metadata" Val.none (kwAfterTrack kwargs)).1

/-- The kwargs actually forwarded to the real method: the original
kwargs with the three reserved keys popped (lines 109-111, 121). -/
def stripReserved (kwargs : List (String × Val)) : List (String × Val) :=
  (popKw "metadata" Val.none (kwAfterTrack kwargs)).2

/-- An extraction function as the wrapper sees it: it may itself raise
(the `Except.error` case), which the wrapper catches and logs. -/
def TrackFn (R : Type) : Type := TrackCall R → Except String Unit

/-- The interceptor `TrackedProxy._wrap_method.wrapped` (proxy.py lines
108-180), as a pure function of the real method's behaviour. The
nondeterministic ingredients (`uuid.uuid4()`, the two `time.time()`
readings) are passed in as `request_id`, `start_time`, `end_time`.
Returns the caller-visible outcome together with the list of
invocations of the extraction function (each invocation's failure is
caught and logged, so only the argument record matters). -/
def wrapped {R : Type}
    (method : List Val → List (String × Val) → Except PyError R)
    (tracker_func : TrackFn R)
    (method_name request_id : String) (start_time end_time : Nat)
    (args : List Val) (kwargs : List (String × Val)) :
    Except PyError R × List (TrackCall R) :=
  match method args (stripReserved kwargs) with
  | Except.ok result =>
      if truthy (trackUsageFlag kwargs) then
        let call : TrackCall R :=
          { result := some result
            customer_id := customerIdArg kwargs
            method_name := method_name
            args := args
            kwargs := stripReserved kwargs
            custom_metadata := metadataArg kwargs
            request_start_time := start_time
            request_end_time := end_time
            error_occurred := false
            error_type := Option.none
            error_code := Option.none
            error_message := Option.none
            request_id := request_id }
        let _ := tracker_func call
        (Except.ok result, [call])
      else (Except.ok result, [])
  | Except.error e =>
      if truthy (trackUsageFlag kwargs) then
        let call : TrackCall R :=
          { result := Option.none
            customer_id := customerIdArg kwargs
            method_name := method_name
            args := args
            kwargs := stripReserved kwargs
            custom_metadata := metadataArg kwargs
            request_start_time := start_time
            request_end_time := end_time
            error_occurred := true
            error_type := some (match e.code with
              | some _ => "grpc_error"
              | Option.none => "sdk_error")
            error_code := e.code
            error_message := some e.msg
            request_id := request_id }
        let _ := tracker_func call
        (Except.error e, [call])
      else (Except.error e, [])

/-- `s.startswith(p)` of Python, on the character lists of the strings. -/
def pyStartsWith (s p : String) : Bool :=
  p.data.isPrefixOf s.data

/-- `s[n:]` of Python: drop the first `n` characters. -/
def pyDrop (s : String) (n : Nat) : String :=
  String.mk (s.data.drop n)

/-- An attribute of the wrapped client object: a bound method (with its
behaviour as a function), a structured sub-object (with a type name and
its own attribute dictionary), or a primitive value. -/
inductive PyAttr (R : Type) where
  | method (f : List Val → List (String × Val) → Except PyError R)
  | obj (typeName : String) (attrs : List (String × PyAttr R))
  | prim (v : Val)

/-- The attribute dictionary `getattr` consults on an object. -/
def attrsOf {R : Type} : PyAttr R → List (String × PyAttr R)
  | .obj _ attrs => attrs
  | _ => []

/-- `type(obj).__name__`, used in the AttributeError message. -/
def typeNameOf {R : Type} : PyAttr R → String
  | .method _ => "function"
  | .obj tn _ => tn
  | .prim (.str _) => "str"
  | .prim (.bool _) => "bool"
  | .prim (.int _) => "int"
  | .prim .none => "NoneType"
  | .prim .ellipsis => "ellipsis"

/-- `callable(attr)` in the embedding: only bound methods are callable. -/
def isCallable {R : Type} : PyAttr R → Bool
  | .method _ => true
  | _ => false

/-- The proxy's structured-object test (line 69): functions and objects
expose `__dict__`; the primitive scalars excluded by the `isinstance`
check do not. -/
def hasDict {R : Type} : PyAttr R → Bool
  | .method _ => true
  | .obj _ _ => true
  | .prim _ => false

/-- `sub_track_methods` (lines 74-78): the interception-table entries
whose key starts with `name + "."`, re-keyed by the suffix
`k[len(name)+1:]`. -/
def subTable {R : Type} (name : String)
    (table : List (String × TrackFn R)) : List (String × TrackFn R) :=
  table.filterMap fun kv =>
    if pyStartsWith kv.1 (name ++ ".") then
      some (pyDrop kv.1 (name.length + 1), kv.2)
    else Option.none

/-- The handle `TrackedProxy.__getattr__` resolves a name to: a tracked
wrapper around a method, a child `TrackedProxy` (client plus derived
table), or the underlying attribute unchanged. -/
inductive Handle (R : Type) where
  | wrapped (f : List Val → List (String × Val) → Except PyError R)
      (t : TrackFn R) (methodName : String)
  | child (client : PyAttr R) (table : List (String × TrackFn R))
  | pass (a : PyAttr R)

/-- The decision `__getattr__` makes for a freshly fetched attribute
(lines 62-87): wrap if callable and an exact table key; else build a
child proxy if the attribute has `__dict__` and stripped sub-keys
exist; else pass the attribute through. -/
def newHandle {R : Type} (name : String) (attr : PyAttr R)
    (table : List (String × TrackFn R)) : Handle R :=
  match attr, table.lookup name with
  | .method f, some t => .wrapped f t name
  | a, _ =>
      if hasDict a then
        let sub := subTable name table
        if sub.isEmpty then .pass a else .child a sub
      else .pass a

/-- The `AttributeError` raised at lines 58-60, identifying the target
client's type name and the missing attribute name. -/
structure AttrError where
  typeName : String
  missing : String
deriving DecidableEq, Repr

/-- `TrackedProxy.__getattr__` (lines 44-87) over an explicit memo
cache (`_tracked_attributes`): returns the resolved handle or the
lookup error, together with the cache after the access. The error
branch leaves the cache unchanged (the absence is not cached). -/
def getattr {R : Type} (client : PyAttr R)
    (table : List (String × TrackFn R))
    (cache : List (String × Handle R)) (name : String) :
    Except AttrError (Handle R) × List (String × Handle R) :=
  match cache.lookup name with
  | some h => (Except.ok h, cache)
  | Option.none =>
      match (attrsOf client).lookup name with
      | Option.none => (Except.error ⟨typeNameOf client, name⟩, cache)
      | some attr =>
          let h := newHandle name attr table
          (Except.ok h, (name, h) :: cache)

/-- Modelled from the spec: `get_effective_customer_id` lives in
`context.py`, which is not under `src/`. Per the spec's identity
collaborator, it consults the override first, then an ambient default
if the override is the unset sentinel (`...`); an explicit null means
no id and no fallback. Non-string overrides resolve to no id. -/
def get_effective_customer_id (ambient : Option String) :
    Val → Option String
  | .ellipsis => ambient
  | .str s => some s
  | _ => Option.none

/-- `result.usage_metadata` as `track_generate_content` reads it:
each counter is present (`some`) or absent (the `getattr` default 0
then applies). -/
structure UsageMeta where
  prompt_token_count : Option Int
  candidates_token_count : Option Int
deriving DecidableEq, Repr

/-- One element of `result.candidates`. -/
structure Candidate where
  finish_reason : Val
deriving DecidableEq, Repr

/-- A `generate_content` result as `track_generate_content` reads it.
`usage_metadata`/`candidates` are `none` when the attribute is absent;
`id`/`safety_ratings` use `Val.none` for the `getattr` default. -/
structure GenResult where
  usage_metadata : Option UsageMeta
  id : Val
  safety_ratings : Val
  candidates : Option (List Candidate)
deriving DecidableEq, Repr

/-- A `count_tokens` result: `total_tokens` is `none` when the
attribute is absent. -/
structure CountResult where
  total_tokens : Option Int
deriving DecidableEq, Repr

/-- The argument record of the one call to
`tracker.track_usage_background`. The sink itself lives in
`tracker.py` (not under `src/`); per the spec it is a capability that
records the event non-blocking, so the extraction functions are
modelled as returning the assembled event (`some`) or emitting nothing
(`none`). -/
structure UsageEvent where
  customer_id : String
  model : Val
  input_tokens : Int
  output_tokens : Int
  provider : String
  metadata : List (String × Val)
  request_start_time : Option Nat
  request_end_time : Option Nat
  error_occurred : Option Bool
  error_type : Option String
  error_code : Option String
  error_message : Option String
  request_id : Option String
deriving DecidableEq, Repr

/-- The model normalization in both extraction functions:
`kwargs.get("model", "unknown")`, then strip a literal `"models/"`
prefix from string values (lines 222-224 and 288-290). -/
def normalizeModel (v : Val) : Val :=
  match v with
  | .str s => if pyStartsWith s "models/" then .str (pyDrop s 7) else .str s
  | other => other

/-- The `model` value both extraction functions compute from kwargs. -/
def modelFromKwargs (kwargs : List (String × Val)) : Val :=
  normalizeModel ((kwargs.lookup "model").getD (Val.str "unknown"))

/-- Python `dict.update`: existing keys keep their position but take
the new value; new keys are appended in order. -/
def dictUpdate (d upd : List (String × Val)) : List (String × Val) :=
  (d.map fun kv => (kv.1, (upd.lookup kv.1).getD kv.2)) ++
    upd.filter fun kv => (d.lookup kv.1).isNone

/-- Merge of the caller-supplied metadata override
(`if custom_metadata: metadata.update(custom_metadata)`): an absent or
empty (falsy) override leaves the metadata alone. -/
def mergeCustom (base : List (String × Val))
    (custom_metadata : Option (List (String × Val))) :
    List (String × Val) :=
  match custom_metadata with
  | some cm => if cm.isEmpty then base else dictUpdate base cm
  | Option.none => base

/-- `finish_reason` of the first candidate, `None` when `candidates`
is absent or empty (lines 233-237). -/
def finishReason (r : GenResult) : Val :=
  match r.candidates with
  | some (c :: _) => c.finish_reason
  | _ => Val.none

/-- Falsiness of the effective customer id
(`if not effective_customer_id`): no id, or the empty string. -/
def noCustomer (eff : Option String) : Bool :=
  match eff with
  | some s => s = ""
  | Option.none => true

/-- `track_generate_content` (proxy.py lines 196-260). `ambient` feeds
the spec-modelled `get_effective_customer_id`. Returns the event handed
to `tracker.track_usage_background`, or `none` when nothing is emitted. -/
def track_generate_content (ambient : Option String)
    (result : Option GenResult) (customer_id : Val)
    (method_name : String) (args : List Val)
    (kwargs : List (String × Val))
    (custom_metadata : Option (List (String × Val)))
    (request_start_time request_end_time : Option Nat)
    (error_occurred : Option Bool)
    (error_type error_code error_message : Option String)
    (request_id : Option String) : Option UsageEvent :=
  let eff := get_effective_customer_id ambient customer_id
  if noCustomer eff then Option.none
  else
    let model := modelFromKwargs kwargs
    let quantities : Int × Int × List (String × Val) :=
      match result with
      | some r =>
          match r.usage_metadata with
          | some um =>
              (um.prompt_token_count.getD 0,
               um.candidates_token_count.getD 0,
               [("response_id", r.id),
                ("safety_ratings", r.safety_ratings),
                ("finish_reason", finishReason r)])
          | Option.none => (0, 0, [])
      | Option.none => (0, 0, [])
    some
      { customer_id := eff.getD ""
        model := model
        input_tokens := quantities.1
        output_tokens := quantities.2.1
        provider := "google"
        metadata := mergeCustom quantities.2.2 custom_metadata
        request_start_time := request_start_time
        request_end_time := request_end_time
        error_occurred := error_occurred
        error_type := error_type
        error_code := error_code
        error_message := error_message
        request_id := request_id }

/-- `track_count_tokens` (proxy.py lines 263-317), same conventions as
`track_generate_content`. -/
def track_count_tokens (ambient : Option String)
    (result : Option CountResult) (customer_id : Val)
    (method_name : String) (args : List Val)
    (kwargs : List (String × Val))
    (custom_metadata : Option (List (String × Val)))
    (request_start_time request_end_time : Option Nat)
    (error_occurred : Option Bool)
    (error_type error_code error_message : Option String)
    (request_id : Option String) : Option UsageEvent :=
  let eff := get_effective_customer_id ambient customer_id
  if noCustomer eff then Option.none
  else
    let model := modelFromKwargs kwargs
    let tokenData : Int × List (String × Val) :=
      match result with
      | some r =>
          match r.total_tokens with
          | some tt =>
              (tt, [("operation", Val.str "count_tokens"),
                    ("total_tokens", Val.int tt)])
          | Option.none => (0, [("operation", Val.str "count_tokens")])
      | Option.none => (0, [("operation", Val.str "count_tokens")])
    some
      { customer_id := eff.getD ""
        model := model
        input_tokens := tokenData.1
        output_tokens := 0
        provider := "google"
        metadata := mergeCustom tokenData.2 custom_metadata
        request_start_time := request_start_time
        request_end_time := request_end_time
        error_occurred := error_occurred
        error_type := error_type
        error_code := error_code
        error_message := error_message
        request_id := request_id }

/-! Helper lemmas about keyword-argument popping. -/

theorem lookup_none_keys {β : Type} {k : String} :
    ∀ {l : List (String × β)}, l.lookup k = Option.none →
      ∀ p ∈ l, (p.1 == k) = false := by
  intro l
  induction l with
  | nil => intro _ p hp; cases hp
  | cons a t ih =>
      intro hl p hp
      rw [List.lookup_cons] at hl
      cases hk : (k == a.1) with
      | true => rw [hk] at hl; simp at hl
      | false =>
          rw [hk] at hl
          cases hp with
          | head =>
              have hne : ¬ (a.1 = k) := by
                intro h
                rw [h] at hk
                simp at hk
              simp [hne]
          | tail _ hmem => exact ih hl p hmem

theorem eraseP_key_eq_filter {β : Type} (k : String) :
    ∀ (l : List (String × β)), (l.map Prod.fst).Nodup →
      l.eraseP (fun p => p.1 == k) = l.filter (fun p => !(p.1 == k)) := by
  intro l
  induction l with
  | nil => intro _; rfl
  | cons a t ih =>
      intro hnd
      rw [List.map_cons, List.nodup_cons] at hnd
      cases hk : (a.1 == k) with
      | true =>
          have hkeq : a.1 = k := beq_iff_eq.mp hk
          have hfilter : t.filter (fun p => !(p.1 == k)) = t := by
            rw [List.filter_eq_self]
            intro p hp
            have hne : ¬ (p.1 = k) := by
              intro h
              have hmem : a.1 ∈ List.map Prod.fst t := by
                rw [hkeq, ← h]
                exact List.mem_map_of_mem Prod.fst hp
              exact hnd.1 hmem
            simp [hne]
          simp [List.eraseP_cons, List.filter_cons, hk, hfilter]
      | false =>
          simp [List.eraseP_cons, List.filter_cons, hk, ih hnd.2]

theorem popKw_snd_eq_filter {k : String} {d : Val}
    {l : List (String × Val)} (hnd : (l.map Prod.fst).Nodup) :
    (popKw k d l).2 = l.filter (fun p => !(p.1 == k)) := by
  unfold popKw
  cases hl : l.lookup k with
  | some v => exact eraseP_key_eq_filter k l hnd
  | none =>
      symm
      simp only [List.filter_eq_self]
      intro p hp
      have := lookup_none_keys hl p hp
      simp [this]

theorem nodupKeys_filter {β : Type} (p : String × β → Bool)
    {l : List (String × β)} (hnd : (l.map Prod.fst).Nodup) :
    ((l.filter p).map Prod.fst).Nodup :=
  ((l.filter_sublist).map Prod.fst).nodup hnd

theorem popKw_fst {k : String} {d : Val} {l : List (String × Val)} :
    (popKw k d l).1 = (l.lookup k).getD d := by
  unfold popKw
  cases hl : l.lookup k <;> rfl

/-- A keyword is one of the three reserved call-site keys. -/
def isReserved (k : String) : Bool :=
  k == "customer_id" || k == "track_usage" || k == "metadata"

theorem stripReserved_eq_filter {kwargs : List (String × Val)}
    (hnd : (kwargs.map Prod.fst).Nodup) :
    stripReserved kwargs = kwargs.filter (fun p => !(isReserved p.1)) := by
  have h1 : kwAfterCustomer kwargs =
      kwargs.filter (fun p => !(p.1 == "customer_id")) :=
    popKw_snd_eq_filter hnd
  have hnd1 : ((kwAfterCustomer kwargs).map Prod.fst).Nodup := by
    rw [h1]; exact nodupKeys_filter _ hnd
  have h2 : kwAfterTrack kwargs =
      (kwAfterCustomer kwargs).filter (fun p => !(p.1 == "track_usage")) :=
    popKw_snd_eq_filter hnd1
  have hnd2 : ((kwAfterTrack kwargs).map Prod.fst).Nodup := by
    rw [h2]; exact nodupKeys_filter _ hnd1
  have h3 : stripReserved kwargs =
      (kwAfterTrack kwargs).filter (fun p => !(p.1 == "metadata")) :=
    popKw_snd_eq_filter hnd2
  rw [h3, h2, h1, List.filter_filter, List.filter_filter]
  apply List.filter_congr
  intro x _
  cases hc : (x.1 == "customer_id") <;>
    cases ht : (x.1 == "track_usage") <;>
      cases hm : (x.1 == "metadata") <;>
        simp [isReserved, hc, ht, hm]

/-! Claims. -/

/-- C4: for every tracked call, a failure of the extraction function
itself never propagates and never alters the caller-visible outcome:
the wrapper's result equals the underlying method's own outcome (real
result on success, the method's own error on failure) for every
extraction function, and two runs differing only in the extraction
function are indistinguishable. -/
theorem claim_C4 {R : Type}
    (method : List Val → List (String × Val) → Except PyError R)
    (f g : TrackFn R) (mn rid : String) (t0 t1 : Nat)
    (args : List Val) (kwargs : List (String × Val)) :
    (wrapped method f mn rid t0 t1 args kwargs).1 =
      method args (stripReserved kwargs) ∧
    wrapped method f mn rid t0 t1 args kwargs =
      wrapped method g mn rid t0 t1 args kwargs := by
  constructor
  · unfold wrapped
    cases hm : method args (stripReserved kwargs) with
    | ok r => cases htu : truthy (trackUsageFlag kwargs) <;> simp [htu]
    | error e => cases htu : truthy (trackUsageFlag kwargs) <;> simp [htu]
  · unfold wrapped
    cases hm : method args (stripReserved kwargs) with
    | ok r => cases htu : truthy (trackUsageFlag kwargs) <;> simp [htu]
    | error e => cases htu : truthy (trackUsageFlag kwargs) <;> simp [htu]

/-- C7: the reserved keywords `customer_id`, `track_usage` and
`metadata` are removed before the underlying method is invoked, every
other keyword argument (and all positional arguments) is forwarded
unchanged, and the supplied `customer_id` value is the override the
extraction function receives. -/
theorem claim_C7 {R : Type}
    (method : List Val → List (String × Val) → Except PyError R)
    (f : TrackFn R) (mn rid : String) (t0 t1 : Nat)
    (args : List Val) (kwargs : List (String × Val)) (v : Val)
    (hnd : (kwargs.map Prod.fst).Nodup)
    (hcid : kwargs.lookup "customer_id" = some v) :
    (wrapped method f mn rid t0 t1 args kwargs).1 =
      method args (stripReserved kwargs) ∧
    stripReserved kwargs = kwargs.filter (fun p => !(isReserved p.1)) ∧
    (∀ c ∈ (wrapped method f mn rid t0 t1 args kwargs).2,
      c.customer_id = v) := by
  refine ⟨(claim_C4 method f f mn rid t0 t1 args kwargs).1,
    stripReserved_eq_filter hnd, ?_⟩
  intro c hc
  have hval : customerIdArg kwargs = v := by
    rw [customerIdArg, popKw_fst, hcid]; rfl
  revert hc
  unfold wrapped
  cases hm : method args (stripReserved kwargs) with
  | ok r =>
      cases htu : truthy (trackUsageFlag kwargs) with
      | true => intro hc; simp at hc; rw [hc]; exact hval
      | false => intro hc; simp [htu] at hc
  | error e =>
      cases htu : truthy (trackUsageFlag kwargs) with
      | true => intro hc; simp at hc; rw [hc]; exact hval
      | false => intro hc; simp [htu] at hc

/-- Witness for C7 at a concrete call: `customer_id="X"` plus one
ordinary keyword. -/
theorem claim_C7_witness :
    ((wrapped (R := Val) (fun _ _ => Except.ok (Val.int 0))
        (fun _ => Except.ok ()) "m" "rid" 0 1 []
        [("customer_id", Val.str "X"), ("a", Val.int 1)]).1 =
      (fun (_ : List Val) (_ : List (String × Val)) =>
        Except.ok (Val.int 0) : List Val → List (String × Val) →
          Except PyError Val) []
        (stripReserved [("customer_id", Val.str "X"), ("a", Val.int 1)]) ∧
    stripReserved [("customer_id", Val.str "X"), ("a", Val.int 1)] =
      ([("customer_id", Val.str "X"), ("a", Val.int 1)]).filter
        (fun p => !(isReserved p.1)) ∧
    (∀ c ∈ (wrapped (R := Val) (fun _ _ => Except.ok (Val.int 0))
        (fun _ => Except.ok ()) "m" "rid" 0 1 []
        [("customer_id", Val.str "X"), ("a", Val.int 1)]).2,
      c.customer_id = Val.str "X")) :=
  claim_C7 (fun _ _ => Except.ok (Val.int 0)) (fun _ => Except.ok ())
    "m" "rid" 0 1 [] [("customer_id", Val.str "X"), ("a", Val.int 1)]
    (Val.str "X") (by decide) (by decide)

/-- C1: when the underlying method raises during a tracked call, the
interceptor classifies the error by the duck-typed `code` accessor:
present means the transport-error kind (the source's `"grpc_error"`
tag) with the accessor's code, absent means `"sdk_error"` with no
code; the message is the error's string form, and these fields are the
ones passed to the extraction function. -/
theorem claim_C1 {R : Type}
    (method : List Val → List (String × Val) → Except PyError R)
    (f : TrackFn R) (mn rid : String) (t0 t1 : Nat)
    (args : List Val) (kwargs : List (String × Val)) (e : PyError)
    (hm : method args (stripReserved kwargs) = Except.error e)
    (ht : truthy (trackUsageFlag kwargs) = true) :
    (wrapped method f mn rid t0 t1 args kwargs).2 =
      [{ result := Option.none
         customer_id := customerIdArg kwargs
         method_name := mn
         args := args
         kwargs := stripReserved kwargs
         custom_metadata := metadataArg kwargs
         request_start_time := t0
         request_end_time := t1
         error_occurred := true
         error_type :=
           some (if e.code.isSome then "grpc_error" else "sdk_error")
         error_code := e.code
         error_message := some e.msg
         request_id := rid }] := by
  unfold wrapped
  rw [hm]
  simp only [ht, if_true]
  cases e.code <;> simp

/-- Witness for C1: a call whose method raises an error exposing
`code()` as `"5"`. -/
theorem claim_C1_witness :
    (wrapped (R := Val)
      (fun _ _ => Except.error ⟨some "5", "Model not found"⟩)
      (fun _ => Except.ok ()) "models.generate_content" "req" 3 7
      [] []).2 =
      [{ result := Option.none
         customer_id := Val.ellipsis
         method_name := "models.generate_content"
         args := []
         kwargs := []
         custom_metadata := Val.none
         request_start_time := 3
         request_end_time := 7
         error_occurred := true
         error_type := some "grpc_error"
         error_code := some "5"
         error_message := some "Model not found"
         request_id := "req" }] :=
  claim_C1 (fun _ _ => Except.error ⟨some "5", "Model not found"⟩)
    (fun _ => Except.ok ()) "models.generate_content" "req" 3 7 [] []
    ⟨some "5", "Model not found"⟩ rfl rfl

/-- C3: with tracking enabled, a raising tracked method re-raises the
identical error to the caller and triggers exactly one extraction
invocation, with `result = none`, the outcome marked as failure, and
the error classification fields populated. -/
theorem claim_C3 {R : Type}
    (method : List Val → List (String × Val) → Except PyError R)
    (f : TrackFn R) (mn rid : String) (t0 t1 : Nat)
    (args : List Val) (kwargs : List (String × Val)) (e : PyError)
    (hm : method args (stripReserved kwargs) = Except.error e)
    (ht : truthy (trackUsageFlag kwargs) = true) :
    (wrapped method f mn rid t0 t1 args kwargs).1 = Except.error e ∧
    (wrapped method f mn rid t0 t1 args kwargs).2.length = 1 ∧
    (∀ c ∈ (wrapped method f mn rid t0 t1 args kwargs).2,
      c.result = Option.none ∧ c.error_occurred = true ∧
      c.error_type.isSome = true ∧ c.error_message = some e.msg) := by
  unfold wrapped
  rw [hm, ht]
  refine ⟨rfl, rfl, ?_⟩
  intro c hc
  simp at hc
  rw [hc]
  simp

/-- Witness for C3: a raising method without a `code` accessor. -/
theorem claim_C3_witness :
    ((wrapped (R := Val)
      (fun _ _ => Except.error ⟨Option.none, "API call failed"⟩)
      (fun _ => Except.ok ()) "tracked_method" "req" 0 1 []
      [("kwarg", Val.str "value")]).1 =
        Except.error ⟨Option.none, "API call failed"⟩ ∧
    (wrapped (R := Val)
      (fun _ _ => Except.error ⟨Option.none, "API call failed"⟩)
      (fun _ => Except.ok ()) "tracked_method" "req" 0 1 []
      [("kwarg", Val.str "value")]).2.length = 1 ∧
    (∀ c ∈ (wrapped (R := Val)
      (fun _ _ => Except.error ⟨Option.none, "API call failed"⟩)
      (fun _ => Except.ok ()) "tracked_method" "req" 0 1 []
      [("kwarg", Val.str "value")]).2,
      c.result = Option.none ∧ c.error_occurred = true ∧
      c.error_type.isSome = true ∧
      c.error_message = some "API call failed")) :=
  claim_C3 (fun _ _ => Except.error ⟨Option.none, "API call failed"⟩)
    (fun _ => Except.ok ()) "tracked_method" "req" 0 1 []
    [("kwarg", Val.str "value")] ⟨Option.none, "API call failed"⟩
    rfl (by decide)

/-- C5: accessing a name absent from the target fails with a lookup
error identifying the target's type and the missing name, and the
absence is not memoized: with the same (unchanged) cache, a later
access against a target that now has the name resolves it. -/
theorem claim_C5 {R : Type} (client client2 : PyAttr R)
    (table : List (String × TrackFn R))
    (cache : List (String × Handle R)) (name : String) (attr : PyAttr R)
    (hc : cache.lookup name = Option.none)
    (ha : (attrsOf client).lookup name = Option.none)
    (ha2 : (attrsOf client2).lookup name = some attr) :
    getattr client table cache name =
      (Except.error ⟨typeNameOf client, name⟩, cache) ∧
    getattr client2 table cache name =
      (Except.ok (newHandle name attr table),
       (name, newHandle name attr table) :: cache) := by
  constructor
  · unfold getattr
    rw [hc, ha]
  · unfold getattr
    rw [hc, ha2]

/-- Witness for C5: a missing attribute, then the same access after
the attribute appears on the target. -/
theorem claim_C5_witness :
    getattr (R := Unit) (PyAttr.obj "Mock" []) [] [] "nonexistent_attr" =
      (Except.error ⟨"Mock", "nonexistent_attr"⟩, []) ∧
    getattr (R := Unit)
      (PyAttr.obj "Mock" [("nonexistent_attr", PyAttr.prim (Val.int 5))])
      [] [] "nonexistent_attr" =
      (Except.ok (Handle.pass (PyAttr.prim (Val.int 5))),
       [("nonexistent_attr", Handle.pass (PyAttr.prim (Val.int 5)))]) :=
  claim_C5 (PyAttr.obj "Mock" [])
    (PyAttr.obj "Mock" [("nonexistent_attr", PyAttr.prim (Val.int 5))])
    [] [] "nonexistent_attr" (PyAttr.prim (Val.int 5)) rfl rfl rfl

/-- C6: a successful first resolution is memoized, and any later
access returns the identical cached handle with the cache unchanged;
for a name that is neither an exact interception-table key nor a
dotted prefix of one, the resolved handle is exactly the target's own
member, passed through. -/
theorem claim_C6 {R : Type} (client : PyAttr R)
    (table : List (String × TrackFn R))
    (cache : List (String × Handle R)) (name : String) (attr : PyAttr R)
    (hc : cache.lookup name = Option.none)
    (ha : (attrsOf client).lookup name = some attr) :
    getattr client table cache name =
      (Except.ok (newHandle name attr table),
       (name, newHandle name attr table) :: cache) ∧
    getattr client table ((name, newHandle name attr table) :: cache)
        name =
      (Except.ok (newHandle name attr table),
       (name, newHandle name attr table) :: cache) ∧
    (table.lookup name = Option.none → subTable name table = [] →
      newHandle name attr table = Handle.pass attr) := by
  refine ⟨?_, ?_, ?_⟩
  · unfold getattr
    rw [hc, ha]
  · unfold getattr
    simp [List.lookup_cons]
  · intro h1 h2
    cases attr <;> simp [newHandle, hasDict, h1, h2]

/-- Witness for C6: a plain attribute on the target, resolved twice. -/
theorem claim_C6_witness :
    getattr (R := Unit)
      (PyAttr.obj "Mock" [("some_attr", PyAttr.prim (Val.str "test_value"))])
      [] [] "some_attr" =
      (Except.ok (Handle.pass (PyAttr.prim (Val.str "test_value"))),
       [("some_attr", Handle.pass (PyAttr.prim (Val.str "test_value")))]) ∧
    getattr (R := Unit)
      (PyAttr.obj "Mock" [("some_attr", PyAttr.prim (Val.str "test_value"))])
      [] [("some_attr", Handle.pass (PyAttr.prim (Val.str "test_value")))]
      "some_attr" =
      (Except.ok (Handle.pass (PyAttr.prim (Val.str "test_value"))),
       [("some_attr", Handle.pass (PyAttr.prim (Val.str "test_value")))]) := by
  have h := claim_C6 (R := Unit)
    (PyAttr.obj "Mock" [("some_attr", PyAttr.prim (Val.str "test_value"))])
    [] [] "some_attr" (PyAttr.prim (Val.str "test_value")) rfl rfl
  exact ⟨h.1, h.2.1⟩

theorem subTable_eq_map_filter {R : Type} (name : String)
    (table : List (String × TrackFn R)) :
    subTable name table =
      (table.filter fun kv => pyStartsWith kv.1 (name ++ ".")).map
        (fun kv => (pyDrop kv.1 (name.length + 1), kv.2)) := by
  unfold subTable
  induction table with
  | nil => rfl
  | cons a t ih =>
      cases hsw : pyStartsWith a.1 (name ++ ".") <;>
        simp [List.filterMap_cons, List.filter_cons, hsw, ih]

/-- C8: a structured member whose name prefixes dotted table keys
resolves to a child proxy whose table is exactly the prefix-stripped
suffix table; and through the chained proxies
`outer.inner.op`, a successful tracked call invokes the extraction
function exactly once. -/
theorem claim_C8 {R : Type} (client : PyAttr R)
    (table : List (String × TrackFn R))
    (cache : List (String × Handle R)) (name tn : String)
    (members : List (String × PyAttr R))
    (hc : cache.lookup name = Option.none)
    (ha : (attrsOf client).lookup name = some (PyAttr.obj tn members))
    (hs : ¬ subTable name table = []) :
    (getattr client table cache name).1 =
      Except.ok (Handle.child (PyAttr.obj tn members)
        (subTable name table)) ∧
    subTable name table =
      (table.filter fun kv => pyStartsWith kv.1 (name ++ ".")).map
        (fun kv => (pyDrop kv.1 (name.length + 1), kv.2)) ∧
    (∀ (f : List Val → List (String × Val) → Except PyError R)
        (tfn : TrackFn R),
      (getattr (PyAttr.obj "Client"
          [("outer", PyAttr.obj "Outer"
            [("inner", PyAttr.obj "Inner" [("op", PyAttr.method f)])])])
          [("outer.inner.op", tfn)] [] "outer").1 =
        Except.ok (Handle.child
          (PyAttr.obj "Outer"
            [("inner", PyAttr.obj "Inner" [("op", PyAttr.method f)])])
          [("inner.op", tfn)]) ∧
      (getattr (PyAttr.obj "Outer"
          [("inner", PyAttr.obj "Inner" [("op", PyAttr.method f)])])
          [("inner.op", tfn)] [] "inner").1 =
        Except.ok (Handle.child
          (PyAttr.obj "Inner" [("op", PyAttr.method f)]) [("op", tfn)]) ∧
      (getattr (PyAttr.obj "Inner" [("op", PyAttr.method f)])
          [("op", tfn)] [] "op").1 =
        Except.ok (Handle.wrapped f tfn "op") ∧
      (∀ (args : List Val) (kwargs : List (String × Val)) (r : R)
          (rid : String) (t0 t1 : Nat),
        truthy (trackUsageFlag kwargs) = true →
        f args (stripReserved kwargs) = Except.ok r →
        ((wrapped f tfn "op" rid t0 t1 args kwargs).2).length = 1)) := by
  refine ⟨?_, ?_, ?_⟩
  · unfold getattr
    rw [hc, ha]
    simp [newHandle, hasDict, List.isEmpty_iff, hs]
  · exact subTable_eq_map_filter name table
  · intro f tfn
    refine ⟨rfl, rfl, rfl, ?_⟩
    intro args kwargs r rid t0 t1 htu hok
    unfold wrapped
    rw [hok, htu]
    rfl

/-- Witness for C8: the Gemini table key `models.generate_content`
resolved through a client exposing `.models`. -/
theorem claim_C8_witness :
    (getattr (R := Unit)
      (PyAttr.obj "Client"
        [("models", PyAttr.obj "Models"
          [("generate_content",
            PyAttr.method (fun _ _ => Except.ok ()))])])
      [("models.generate_content", fun _ => Except.ok ())] []
      "models").1 =
      Except.ok (Handle.child
        (PyAttr.obj "Models"
          [("generate_content",
            PyAttr.method (fun _ _ => Except.ok ()))])
        (subTable "models"
          [("models.generate_content", fun _ => Except.ok ())])) :=
  (claim_C8
    (PyAttr.obj "Client"
      [("models", PyAttr.obj "Models"
        [("generate_content",
          PyAttr.method (fun _ _ => Except.ok ()))])])
    [("models.generate_content", fun _ => Except.ok ())] []
    "models" "Models"
    [("generate_content", PyAttr.method (fun _ _ => Except.ok ()))]
    rfl rfl (by intro h; exact List.noConfusion h)).1

/-- C2, evaluated on the code: for a successful generate call whose
result lacks the `usage_metadata` container, `track_generate_content`
as implemented still emits an event, with zero quantities — contrary
to the claim (and to the repository's own test
`test_track_generate_content_no_usage_info`, which asserts that
nothing is emitted). The second conjunct shows the present-container
half of the claim: prompt 15 / candidates 25 is emitted exactly. -/
theorem claim_C2 :
    (track_generate_content Option.none
      (some { usage_metadata := Option.none
              id := Val.none
              safety_ratings := Val.none
              candidates := Option.none })
      (Val.str "customer-123") "models.generate_content" [] []
      Option.none Option.none Option.none Option.none Option.none
      Option.none Option.none Option.none).map
        (fun e => (e.input_tokens, e.output_tokens)) =
      some (0, 0) ∧
    (track_generate_content Option.none
      (some { usage_metadata := some ⟨some 15, some 25⟩
              id := Val.str "resp_123"
              safety_ratings := Val.none
              candidates := some [⟨Val.str "STOP"⟩] })
      (Val.str "customer-123") "models.generate_content" []
      [("model", Val.str "gemini-2.5-flash")]
      Option.none Option.none Option.none Option.none Option.none
      Option.none Option.none Option.none).map
        (fun e => (e.input_tokens, e.output_tokens, e.model)) =
      some (15, 25, Val.str "gemini-2.5-flash") := by
  constructor <;> rfl

/-- C9: whenever either extraction function emits (a customer id
resolves to a non-empty identifier), the recorded operation identifier
is the `model` keyword argument with a literal `"models/"` prefix
stripped, and unchanged when the prefix is absent. -/
theorem claim_C9 (ambient : Option String) (resultG : Option GenResult)
    (resultC : Option CountResult) (cidv : Val) (mn : String)
    (argsv : List Val) (kwargs : List (String × Val))
    (cm : Option (List (String × Val))) (t0 t1 : Option Nat)
    (eo : Option Bool) (et ec em : Option String) (rid : Option String)
    (s cid : String)
    (hmodel : kwargs.lookup "model" = some (Val.str s))
    (hcid : get_effective_customer_id ambient cidv = some cid)
    (hne : ¬ cid = "") :
    (track_generate_content ambient resultG cidv mn argsv kwargs cm
        t0 t1 eo et ec em rid).map (fun e => e.model) =
      some (Val.str (if pyStartsWith s "models/" then pyDrop s 7 else s)) ∧
    (track_count_tokens ambient resultC cidv mn argsv kwargs cm
        t0 t1 eo et ec em rid).map (fun e => e.model) =
      some (Val.str (if pyStartsWith s "models/" then pyDrop s 7 else s)) := by
  have hnc : noCustomer (get_effective_customer_id ambient cidv) = false := by
    rw [hcid]
    simp [noCustomer, hne]
  have hmdl : modelFromKwargs kwargs =
      Val.str (if pyStartsWith s "models/" then pyDrop s 7 else s) := by
    rw [modelFromKwargs, hmodel]
    cases hsw : pyStartsWith s "models/" <;> simp [normalizeModel, hsw]
  constructor
  · simp only [track_generate_content, hnc, if_false, Option.map_some,
      Bool.false_eq_true, ite_false]
    rw [← hmdl]
    rfl
  · simp only [track_count_tokens, hnc, if_false, Option.map_some,
      Bool.false_eq_true, ite_false]
    rw [← hmdl]
    rfl

/-- Witness for C9: `model="models/x"` observed as `"x"` by both
extraction functions. -/
theorem claim_C9_witness :
    (track_generate_content Option.none Option.none (Val.str "cust")
        "models.generate_content" [] [("model", Val.str "models/x")]
        Option.none Option.none Option.none Option.none Option.none
        Option.none Option.none Option.none).map (fun e => e.model) =
      some (Val.str (if pyStartsWith "models/x" "models/" then
        pyDrop "models/x" 7 else "models/x")) ∧
    (track_count_tokens Option.none Option.none (Val.str "cust")
        "models.count_tokens" [] [("model", Val.str "models/x")]
        Option.none Option.none Option.none Option.none Option.none
        Option.none Option.none Option.none).map (fun e => e.model) =
      some (Val.str (if pyStartsWith "models/x" "models/" then
        pyDrop "models/x" 7 else "models/x")) :=
  claim_C9 Option.none Option.none Option.none (Val.str "cust")
    "models.generate_content" [] [("model", Val.str "models/x")]
    Option.none Option.none Option.none Option.none Option.none
    Option.none Option.none Option.none "models/x" "cust"
    rfl rfl (by decide)

/-- C10: whenever `track_count_tokens` emits, the event's output
quantity is zero and its input quantity is the result's
`total_tokens` when that field is present, and zero otherwise
(including when the result is `none` on the failure path). -/
theorem claim_C10 (ambient : Option String)
    (resultC : Option CountResult) (cidv : Val) (mn : String)
    (argsv : List Val) (kwargs : List (String × Val))
    (cm : Option (List (String × Val))) (t0 t1 : Option Nat)
    (eo : Option Bool) (et ec em : Option String) (rid : Option String)
    (cid : String)
    (hcid : get_effective_customer_id ambient cidv = some cid)
    (hne : ¬ cid = "") :
    (track_count_tokens ambient resultC cidv mn argsv kwargs cm
        t0 t1 eo et ec em rid).map
      (fun e => (e.input_tokens, e.output_tokens)) =
      some ((match resultC with
             | some r => r.total_tokens.getD 0
             | Option.none => 0), 0) := by
  have hnc : noCustomer (get_effective_customer_id ambient cidv) = false := by
    rw [hcid]
    simp [noCustomer, hne]
  simp only [track_count_tokens, hnc, if_false, Option.map_some,
    Bool.false_eq_true, ite_false]
  cases resultC with
  | none => rfl
  | some r => cases h : r.total_tokens <;> simp [h]

/-- Witness for C10: a result carrying `total_tokens = 15`. -/
theorem claim_C10_witness :
    (track_count_tokens Option.none (some ⟨some 15⟩)
        (Val.str "customer-123") "models.count_tokens" []
        [("model", Val.str "gemini-2.5-flash")] Option.none
        Option.none Option.none Option.none Option.none Option.none
        Option.none Option.none).map
      (fun e => (e.input_tokens, e.output_tokens)) = some (15, 0) :=
  claim_C10 Option.none (some ⟨some 15⟩) (Val.str "customer-123")
    "models.count_tokens" [] [("model", Val.str "gemini-2.5-flash")]
    Option.none Option.none Option.none Option.none Option.none
    Option.none Option.none Option.none "customer-123" rfl (by decide)

end CmdrData
